import Mathlib

/-!
Shallow embedding of the process-orchestration and repository-status core of
the illogical-updots repository, together with theorems settling the frozen
claims about it.

Source files embedded:
  - src/core/git_utils.py   (RepoStatus, run_git helpers, check_repo_status)
  - src/utils/process.py    (stream_process_lines, spawn_setup_install and its
                             PTYStdout reader and auto-input feeder,
                             launch_install_external)

External effects (filesystem probes, git subprocess results, spawn outcomes,
transport state) are modelled as explicit world/outcome values supplied to the
embedded functions; every function of the source then becomes a pure Lean
function of the world, mirroring the source control flow line by line.
-/

set_option autoImplicit false

namespace Updots

/-! ## Python string primitives used by git_utils.py -/

/-- Whitespace recognised by Python str.strip for the ASCII range
(space, tab, newline, carriage return, vertical tab, form feed). -/
def pyIsSpace (c : Char) : Bool :=
  c == ' ' || c == '\t' || c == '\n' || c == '\r' || c == '\x0b' || c == '\x0c'

/-- Python str.strip(): drop leading and trailing whitespace. -/
def pyStrip (s : String) : String :=
  String.mk (((s.toList.dropWhile pyIsSpace).reverse.dropWhile pyIsSpace).reverse)

/-- Python str.splitlines, restricted to the line breaks that can occur in
the git output handled here: newline, carriage return, and the CRLF pair.
A trailing break produces no empty final element, as in Python. -/
def pySplitlinesGo : List Char → List Char → List String
  | [], acc => if acc.isEmpty then [] else [String.mk acc.reverse]
  | '\r' :: '\n' :: rest, acc => String.mk acc.reverse :: pySplitlinesGo rest []
  | '\r' :: rest, acc => String.mk acc.reverse :: pySplitlinesGo rest []
  | '\n' :: rest, acc => String.mk acc.reverse :: pySplitlinesGo rest []
  | c :: rest, acc => pySplitlinesGo rest (c :: acc)

/-- Python str.splitlines on a whole string. -/
def pySplitlines (s : String) : List String :=
  pySplitlinesGo s.toList []

/-- Digits of a decimal numeral folded into a natural number. -/
def digitsToNat (ds : List Char) : Nat :=
  ds.foldl (fun acc c => acc * 10 + (c.toNat - '0'.toNat)) 0

/-- Parse a non-empty all-digit character list, as in Python int(). -/
def parseDigits (ds : List Char) : Option Nat :=
  if ds ≠ [] ∧ ds.all Char.isDigit then some (digitsToNat ds) else none

/-- Python int() applied to an already-stripped string: an optional sign
followed by decimal digits; anything else raises ValueError, modelled as
none. (Underscore digit grouping and non-ASCII digits, which Python also
accepts, never occur in git rev-list output and are not modelled.) -/
def pyParseInt (s : String) : Option Int :=
  match s.toList with
  | '+' :: ds => (parseDigits ds).map (fun n => (n : Int))
  | '-' :: ds => (parseDigits ds).map (fun n => -(n : Int))
  | ds => (parseDigits ds).map (fun n => (n : Int))

/-- Python `a or b` on strings: the empty string is falsy. -/
def pyOr (a b : String) : String :=
  if a.isEmpty then b else a

/-- Python truthiness of an Optional[str]: None and the empty string are
falsy. -/
def pyTruthy : Option String → Bool
  | none => false
  | some s => !s.isEmpty

/-! ## src/core/git_utils.py -/

/-- RepoStatus dataclass of src/core/git_utils.py, with the same field
defaults. Counts are Int because Python ints are unbounded and signed. -/
structure RepoStatus where
  ok : Bool
  repo_path : String
  branch : Option String := none
  upstream : Option String := none
  behind : Int := 0
  ahead : Int := 0
  dirty : Int := 0
  fetch_error : Option String := none
  error : Option String := none
deriving Repr, DecidableEq

/-- RepoStatus.has_updates property: ok and behind > 0. -/
def RepoStatus.has_updates (s : RepoStatus) : Bool :=
  s.ok && decide (0 < s.behind)

/-- Result triple of run_git: (returncode, stdout, stderr). run_git itself
converts any exception into (1, "", message), so a triple is always
available; the world below supplies these triples directly. -/
abbrev GitResult := Int × String × String

/-- External world seen by check_repo_status: the two filesystem probes and
the result of each git invocation it can make. The two rev-list queries are
functions of the upstream name interpolated into their range argument. -/
structure GitWorld where
  isDir : Bool
  hasGitDir : Bool
  fetch : GitResult
  branchQ : GitResult
  upstreamQ : GitResult
  revListBehind : String → GitResult
  revListAhead : String → GitResult
  statusQ : GitResult

/-- get_branch: strip of stdout of rev-parse --abbrev-ref HEAD when it exits
zero, None otherwise. -/
def get_branch (w : GitWorld) : Option String :=
  if w.branchQ.1 = 0 then some (pyStrip w.branchQ.2.1) else none

/-- get_upstream: strip of stdout of rev-parse @{u} when it exits zero;
otherwise origin/<branch> when branch is truthy; otherwise None. -/
def get_upstream (w : GitWorld) (branch : Option String) : Option String :=
  if w.upstreamQ.1 = 0 then some (pyStrip w.upstreamQ.2.1)
  else
    match branch with
    | some b => if b.isEmpty then none else some ("origin/" ++ b)
    | none => none

/-- get_dirty_count: number of non-blank lines of git status --porcelain
output, zero when the query fails. -/
def get_dirty_count (w : GitWorld) : Int :=
  if w.statusQ.1 ≠ 0 then 0
  else ((pySplitlines w.statusQ.2.1).filter (fun ln => !(pyStrip ln).isEmpty)).length

/-- One behind/ahead count of check_repo_status: when the rev-list query
exits zero, int() of its stripped stdout (empty stdout counts as "0",
ValueError gives 0); when the query fails, 0. -/
def countQuery (q : GitResult) : Int :=
  if q.1 = 0 then
    (pyParseInt (pyOr (pyStrip q.2.1) "0")).getD 0
  else 0

/-- check_repo_status of src/core/git_utils.py as a function of the world:
validate path and .git directory, run the non-fatal fetch, resolve branch
and upstream, compute behind/ahead via the two rev-list counts, count dirty
files, and assemble the snapshot. -/
def check_repo_status (w : GitWorld) (repo_path : String) : RepoStatus :=
  if !w.isDir then
    { ok := false, repo_path := repo_path, error := some "Repository path not found" }
  else if !w.hasGitDir then
    { ok := false, repo_path := repo_path, error := some "Not a git repository" }
  else
    let fetch_error : Option String :=
      if w.fetch.1 ≠ 0 then some (pyStrip (pyOr w.fetch.2.2 "fetch failed")) else none
    let branch := get_branch w
    let upstream := get_upstream w branch
    let counts : Int × Int :=
      if pyTruthy upstream then
        (countQuery (w.revListBehind (upstream.getD "")),
         countQuery (w.revListAhead (upstream.getD "")))
      else (0, 0)
    { ok := true
      repo_path := repo_path
      branch := branch
      upstream := upstream
      behind := counts.1
      ahead := counts.2
      dirty := get_dirty_count w
      fetch_error := fetch_error }

/-! ## Claim C10: has_updates is ok and behind > 0 -/

/-- C10: for every RepoStatus value, the derived predicate has_updates is
true if and only if ok is true and behind > 0. -/
theorem c10_has_updates_iff (s : RepoStatus) :
    s.has_updates = true ↔ (s.ok = true ∧ 0 < s.behind) := by
  simp [RepoStatus.has_updates]

/-! ## Claim C8: validation failures -/

/-- C8: a path that is not a directory yields ok false with error
"Repository path not found"; a directory without .git yields ok false with
error "Not a git repository"; in both cases every count is zero and branch,
upstream and fetch_error are absent. -/
theorem c8_validation_failures (w : GitWorld) (repo_path : String) :
    (w.isDir = false →
      check_repo_status w repo_path =
        { ok := false, repo_path := repo_path, branch := none, upstream := none,
          behind := 0, ahead := 0, dirty := 0, fetch_error := none,
          error := some "Repository path not found" }) ∧
    (w.isDir = true → w.hasGitDir = false →
      check_repo_status w repo_path =
        { ok := false, repo_path := repo_path, branch := none, upstream := none,
          behind := 0, ahead := 0, dirty := 0, fetch_error := none,
          error := some "Not a git repository" }) := by
  constructor
  · intro h
    simp [check_repo_status, h]
  · intro h1 h2
    simp [check_repo_status, h1, h2]

/-- World with a missing repository path. -/
def gitWorldNoDir : GitWorld :=
  { isDir := false, hasGitDir := false, fetch := (0, "", ""),
    branchQ := (0, "", ""), upstreamQ := (0, "", ""),
    revListBehind := fun _ => (0, "", ""), revListAhead := fun _ => (0, "", ""),
    statusQ := (0, "", "") }

/-- World with an existing directory lacking .git metadata. -/
def gitWorldNoGit : GitWorld :=
  { isDir := true, hasGitDir := false, fetch := (0, "", ""),
    branchQ := (0, "", ""), upstreamQ := (0, "", ""),
    revListBehind := fun _ => (0, "", ""), revListAhead := fun _ => (0, "", ""),
    statusQ := (0, "", "") }

/-- Witness for C8 at two concrete worlds. -/
theorem c8_validation_failures_witness :
    check_repo_status gitWorldNoDir "/missing" =
      { ok := false, repo_path := "/missing", branch := none, upstream := none,
        behind := 0, ahead := 0, dirty := 0, fetch_error := none,
        error := some "Repository path not found" } ∧
    check_repo_status gitWorldNoGit "/plain" =
      { ok := false, repo_path := "/plain", branch := none, upstream := none,
        behind := 0, ahead := 0, dirty := 0, fetch_error := none,
        error := some "Not a git repository" } :=
  ⟨(c8_validation_failures gitWorldNoDir "/missing").1 rfl,
   (c8_validation_failures gitWorldNoGit "/plain").2 rfl rfl⟩

/-! ## Claim C2: a failed fetch degrades, never aborts -/

/-- C2: for a valid repository, a failed fetch (non-zero exit, exceptions
included since run_git converts them to exit 1) records its message in
fetch_error while branch, upstream, behind, ahead and dirty are still
computed from the remaining queries, with ok true and error absent. -/
theorem c2_fetch_failure_degrades (w : GitWorld) (repo_path : String)
    (hd : w.isDir = true) (hg : w.hasGitDir = true) (hf : w.fetch.1 ≠ 0) :
    check_repo_status w repo_path =
      { ok := true
        repo_path := repo_path
        branch := get_branch w
        upstream := get_upstream w (get_branch w)
        behind := if pyTruthy (get_upstream w (get_branch w)) then
            countQuery (w.revListBehind ((get_upstream w (get_branch w)).getD "")) else 0
        ahead := if pyTruthy (get_upstream w (get_branch w)) then
            countQuery (w.revListAhead ((get_upstream w (get_branch w)).getD "")) else 0
        dirty := get_dirty_count w
        fetch_error := some (pyStrip (pyOr w.fetch.2.2 "fetch failed"))
        error := none } := by
  simp only [check_repo_status, hd, hg, hf, Bool.not_true, Bool.false_eq_true,
    if_false, if_true, ite_not]
  by_cases hu : pyTruthy (get_upstream w (get_branch w)) = true
  · simp [hu]
  · simp [hu]

/-- World of a valid repository whose remote fetch fails. -/
def gitWorldFetchFail : GitWorld :=
  { isDir := true, hasGitDir := true,
    fetch := (1, "", "fatal: unable to access remote\n"),
    branchQ := (0, "main\n", ""),
    upstreamQ := (0, "origin/main\n", ""),
    revListBehind := fun _ => (0, "2\n", ""),
    revListAhead := fun _ => (0, "1\n", ""),
    statusQ := (0, " M a.txt\n?? b.txt\n", "") }

/-- Witness for C2 at a concrete world: the fetch failure is recorded and
every other field is still computed. -/
theorem c2_fetch_failure_degrades_witness :
    check_repo_status gitWorldFetchFail "/repo" =
      { ok := true
        repo_path := "/repo"
        branch := get_branch gitWorldFetchFail
        upstream := get_upstream gitWorldFetchFail (get_branch gitWorldFetchFail)
        behind := if pyTruthy (get_upstream gitWorldFetchFail (get_branch gitWorldFetchFail)) then
            countQuery (gitWorldFetchFail.revListBehind
              ((get_upstream gitWorldFetchFail (get_branch gitWorldFetchFail)).getD "")) else 0
        ahead := if pyTruthy (get_upstream gitWorldFetchFail (get_branch gitWorldFetchFail)) then
            countQuery (gitWorldFetchFail.revListAhead
              ((get_upstream gitWorldFetchFail (get_branch gitWorldFetchFail)).getD "")) else 0
        dirty := get_dirty_count gitWorldFetchFail
        fetch_error := some (pyStrip (pyOr gitWorldFetchFail.fetch.2.2 "fetch failed"))
        error := none } :=
  c2_fetch_failure_degrades gitWorldFetchFail "/repo" rfl rfl (by decide)

/-! ## Claim C3: behind/ahead from independent range counts -/

/-- C3: for a valid repository, when an upstream is resolved the behind and
ahead fields each come from their own rev-list count query through
countQuery, which defaults to 0 on query failure or non-numeric output;
when no upstream is resolved both are 0 and has_updates is false. -/
theorem c3_behind_ahead_counts (w : GitWorld) (repo_path : String)
    (hd : w.isDir = true) (hg : w.hasGitDir = true) :
    (pyTruthy (get_upstream w (get_branch w)) = true →
      (check_repo_status w repo_path).behind =
        countQuery (w.revListBehind ((get_upstream w (get_branch w)).getD "")) ∧
      (check_repo_status w repo_path).ahead =
        countQuery (w.revListAhead ((get_upstream w (get_branch w)).getD ""))) ∧
    (pyTruthy (get_upstream w (get_branch w)) = false →
      (check_repo_status w repo_path).behind = 0 ∧
      (check_repo_status w repo_path).ahead = 0 ∧
      (check_repo_status w repo_path).has_updates = false) ∧
    (∀ rc out err, rc ≠ 0 → countQuery (rc, out, err) = 0) ∧
    (∀ out err, pyParseInt (pyOr (pyStrip out) "0") = none →
      countQuery (0, out, err) = 0) := by
  refine ⟨?_, ?_, ?_, ?_⟩
  · intro hu
    simp [check_repo_status, hd, hg, hu]
  · intro hu
    refine ⟨?_, ?_, ?_⟩
    · simp [check_repo_status, hd, hg, hu]
    · simp [check_repo_status, hd, hg, hu]
    · simp [RepoStatus.has_updates, check_repo_status, hd, hg, hu]
  · intro rc out err hrc
    simp [countQuery, hrc]
  · intro out err hp
    simp [countQuery, hp]

/-- World of a valid repository with a resolved upstream and numeric range
counts. -/
def gitWorldUpstream : GitWorld :=
  { isDir := true, hasGitDir := true,
    fetch := (0, "", ""),
    branchQ := (0, "main\n", ""),
    upstreamQ := (0, "origin/main\n", ""),
    revListBehind := fun u => if u = "origin/main" then (0, "3\n", "") else (1, "", ""),
    revListAhead := fun u => if u = "origin/main" then (0, "1\n", "") else (1, "", ""),
    statusQ := (0, "", "") }

/-- Witness for C3 at a concrete world with a resolved upstream. -/
theorem c3_behind_ahead_counts_witness :
    (check_repo_status gitWorldUpstream "/repo").behind =
      countQuery (gitWorldUpstream.revListBehind
        ((get_upstream gitWorldUpstream (get_branch gitWorldUpstream)).getD "")) ∧
    (check_repo_status gitWorldUpstream "/repo").ahead =
      countQuery (gitWorldUpstream.revListAhead
        ((get_upstream gitWorldUpstream (get_branch gitWorldUpstream)).getD "")) ∧
    countQuery (1, "7\n", "") = 0 :=
  ⟨((c3_behind_ahead_counts gitWorldUpstream "/repo" rfl rfl).1 (by decide)).1,
   ((c3_behind_ahead_counts gitWorldUpstream "/repo" rfl rfl).1 (by decide)).2,
   (c3_behind_ahead_counts gitWorldUpstream "/repo" rfl rfl).2.2.1 1 "7\n" "" (by decide)⟩

/-! ## src/utils/process.py: stream_process_lines -/

/-- Outcome of one invocation of stream_process_lines, as seen at its
subprocess boundary: either the Popen call raises (spawnFail, with the
exception text), or the process runs, the read loop delivers the lines the
process wrote in write order, an optional exception interrupts the loop
(streamErr), and p.wait() returns the exit code. -/
inductive StreamOutcome where
  | spawnFail (msg : String)
  | run (lines : List String) (streamErr : Option String) (exitCode : Int)
deriving Repr

/-- Diagnostic line emitted when the read loop raises. -/
def streamErrLines : Option String → List String
  | none => []
  | some e => ["[stream error] " ++ e ++ "\n"]

/-- Terminal sentinel line of stream_process_lines. -/
def exitSentinel (rc : Int) : String :=
  "[exit " ++ toString rc ++ "]\n"

/-- stream_process_lines of src/utils/process.py: on spawn failure it calls
on_line once with a failed-to-spawn diagnostic and returns 1; otherwise it
forwards each output line, appends a stream-error diagnostic if the read
loop raised, then always delivers the exit sentinel and returns the exit
code. Returns (lines delivered to on_line in order, return value). -/
def stream_process_lines : StreamOutcome → List String × Int
  | .spawnFail msg => (["[error] failed to spawn: " ++ msg ++ "\n"], 1)
  | .run lines err rc => (lines ++ streamErrLines err ++ [exitSentinel rc], rc)

/-! ## Claim C1: line order and the exit sentinel -/

/-- Counterexample to C1 as stated: when the spawn itself fails, the single
delivered line is the spawn diagnostic and the call returns 1, but no
"[exit 1]" sentinel is delivered, so the last line is not the sentinel of
the returned code. -/
theorem c1_sentinel_counterexample :
    stream_process_lines (.spawnFail "boom") =
      (["[error] failed to spawn: boom\n"], 1) ∧
    (stream_process_lines (.spawnFail "boom")).1.getLast? ≠
      some (exitSentinel 1) := by
  constructor
  · rfl
  · decide

/-- C1 amended: whenever the spawn succeeds, the delivered lines are the
process lines in write order, followed by the read-loop diagnostic if any,
followed by exactly one appended exit sentinel whose code is the returned
exit code, which is always the last line delivered; when the spawn fails,
exactly one failed-to-spawn diagnostic is delivered and 1 is returned with
no sentinel. -/
theorem c1_sentinel_amended (lines : List String) (err : Option String)
    (rc : Int) (msg : String) :
    stream_process_lines (.run lines err rc) =
      (lines ++ streamErrLines err ++ [exitSentinel rc], rc) ∧
    (stream_process_lines (.run lines err rc)).1.getLast? =
      some (exitSentinel rc) ∧
    stream_process_lines (.spawnFail msg) =
      (["[error] failed to spawn: " ++ msg ++ "\n"], 1) := by
  refine ⟨rfl, ?_, rfl⟩
  simp [stream_process_lines, List.getLast?_append]

/-! ## src/utils/process.py: PTYStdout line reader -/

/-- PTYStdout reader of spawn_setup_install: the wrapped text stream is
modelled as the list of characters still unread (read(1) pops one, the
empty list is end of stream), plus the internal line buffer. -/
structure PTYStdout where
  stream : List Char
  buffer : List Char
deriving Repr, DecidableEq

/-- Python buffer.split of the first newline: the part before it and the
part after it, or none when the buffer holds no newline. -/
def splitFirstNl : List Char → Option (List Char × List Char)
  | [] => none
  | c :: cs =>
    if c = '\n' then some ([], cs)
    else
      match splitFirstNl cs with
      | none => none
      | some (a, b) => some (c :: a, b)

/-- Loop body of PTYStdout.readline: read one character at a time into the
buffer; on a newline in the buffer return the line including its newline
and keep the rest; at end of stream flush a non-empty buffer without a
newline, then return the empty string forever. -/
def ptyReadlineGo : List Char → List Char → String × PTYStdout
  | [], buf =>
    if buf.isEmpty then ("", ⟨[], []⟩) else (String.mk buf, ⟨[], []⟩)
  | c :: rest, buf =>
    let buf2 := buf ++ [c]
    match splitFirstNl buf2 with
    | some (line, tail) => (String.mk line ++ "\n", ⟨rest, tail⟩)
    | none => ptyReadlineGo rest buf2

/-- PTYStdout.readline: returns the next line and the updated reader. -/
def PTYStdout.readline (s : PTYStdout) : String × PTYStdout :=
  ptyReadlineGo s.stream s.buffer

/-! ## Claim C4: line assembly across chunk boundaries -/

/-- C4: fed the byte chunks "ab", "c\n", "d" (the reader consumes their
concatenation one character at a time, so chunk boundaries cannot affect
it) followed by end of stream, readline yields exactly "abc\n" with its
newline, then "d" without one once the stream ends, then the empty string
on every subsequent call. -/
theorem c4_pty_readline_chunks :
    PTYStdout.readline ⟨("ab" ++ "c\n" ++ "d").toList, []⟩ =
      ("abc\n", ⟨['d'], []⟩) ∧
    PTYStdout.readline ⟨['d'], []⟩ = ("d", ⟨[], []⟩) ∧
    PTYStdout.readline ⟨[], []⟩ = ("", ⟨[], []⟩) := by
  refine ⟨?_, ?_, ?_⟩ <;> decide

/-! ## src/utils/process.py: auto-input feeder (_feed, pipe transport)

The pipe transport is the one whose closed attribute the feeder consults
(getattr(pipe, "closed", False)); its closure over time is modelled by an
optional event index closedFrom: the pipe reports closed at every feeder
event from that index on (item i is event i, the final sentinel write is
the event after the last item reached). A write to a closed pipe cannot
reach the transport: pipe.fileno() raises first, the exception is logged
and no byte is written. Write failures on an open pipe are not modelled;
the sleeps and log lines do not affect which writes reach the transport. -/

/-- Whether the pipe reports closed at the given feeder event index. -/
def pipeClosedAt (closedFrom : Option Nat) (step : Nat) : Bool :=
  match closedFrom with
  | none => false
  | some n => decide (n ≤ step)

/-- Successful transport writes of the _feed loop from event index i on:
each item is written unless the pipe reports closed first, in which case
the loop breaks and the subsequent sentinel attempt raises on the closed
pipe; after all items, the sentinel "yesforall\n" is written unless the
pipe has closed by then. -/
def feedPipeGo (closedFrom : Option Nat) : List String → Nat → List String
  | [], i => if pipeClosedAt closedFrom i then [] else ["yesforall\n"]
  | item :: rest, i =>
    if pipeClosedAt closedFrom i then []
    else item :: feedPipeGo closedFrom rest (i + 1)

/-- Writes that _feed delivers to the pipe transport for a given auto-input
sequence and closure history. -/
def feedPipeWrites (seq : List String) (closedFrom : Option Nat) : List String :=
  feedPipeGo closedFrom seq 0

/-! ## Claim C5: feeder order and early stop -/

/-- C5: with auto-input sequence ["yes", "2"] on a pipe that never closes,
the feeder delivers "yes", then "2", then the sentinel "yesforall\n", in
exactly that order; if the pipe reports closed at any event up to the
sentinel, the delivered writes are exactly the items before the closure and
the sentinel is never delivered. -/
theorem c5_feeder_order (k : Nat) (hk : k ≤ 2) :
    feedPipeWrites ["yes", "2"] none = ["yes", "2", "yesforall\n"] ∧
    feedPipeWrites ["yes", "2"] (some k) = (["yes", "2"]).take k ∧
    "yesforall\n" ∉ feedPipeWrites ["yes", "2"] (some k) := by
  refine ⟨by decide, ?_, ?_⟩
  · interval_cases k <;> decide
  · interval_cases k <;> decide

/-- Witness for C5 with the pipe reporting closed mid-sequence, before the
second item. -/
theorem c5_feeder_order_witness :
    feedPipeWrites ["yes", "2"] none = ["yes", "2", "yesforall\n"] ∧
    feedPipeWrites ["yes", "2"] (some 1) = (["yes", "2"]).take 1 ∧
    "yesforall\n" ∉ feedPipeWrites ["yes", "2"] (some 1) :=
  c5_feeder_order 1 (by decide)

/-! ## src/utils/process.py: spawn_setup_install fallback chain

Each element of the command list is attempted with subprocess.Popen inside
a try block; the attempt outcome (success, OSError with an errno, or any
other exception) is modelled by a function from the command to a
SpawnAttempt. The PTY allocation that precedes Popen catches its own
failures and merely degrades to pipe mode, so it never changes the control
flow of the loop; the success log is written as the pipe-mode "[spawn]"
line (PTY mode logs "[spawn/pty]" instead, which no claim depends on). -/

/-- errno.ENOEXEC on Linux. -/
def ENOEXEC : Nat := 8

/-- Outcome of one Popen attempt: success, an OSError carrying an errno and
message, or any other exception with its message. -/
inductive SpawnAttempt where
  | ok
  | osError (errnoCode : Nat) (msg : String)
  | exc (msg : String)
deriving Repr, DecidableEq

/-- The three candidate command vectors of spawn_setup_install, in order. -/
def setupBaseCmds (extra : List String) : List (List String) :=
  [["./setup"] ++ extra, ["fish", "./setup"] ++ extra, ["sh", "./setup"] ++ extra]

/-- Result of the fallback loop: the command that spawned (if any), the
commands attempted in order, and the log lines emitted by the loop. -/
structure SpawnSim where
  result : Option (List String)
  attempted : List (List String)
  logs : List String
deriving Repr, DecidableEq

/-- Fallback loop of spawn_setup_install over the remaining commands: a
successful attempt returns the process; an OSError with errno ENOEXEC logs
a warning and continues with the next command; any other OSError or
exception logs an error and returns None; an exhausted list logs the
terminal error and returns None. -/
def spawnLoop (attempt : List String → SpawnAttempt) :
    List (List String) → SpawnSim
  | [] => ⟨none, [], ["[error] All setup execution fallbacks failed.\n"]⟩
  | c :: rest =>
    match attempt c with
    | .ok =>
      ⟨some c, [c], ["[spawn] " ++ String.intercalate " " c ++ "\n"]⟩
    | .osError e m =>
      if e = ENOEXEC then
        let s := spawnLoop attempt rest
        ⟨s.result, c :: s.attempted,
          ("[warn] Exec format error with " ++ String.intercalate " " c ++
            "; trying fallback...\n") :: s.logs⟩
      else ⟨none, [c], ["[error] " ++ m ++ "\n"]⟩
    | .exc m => ⟨none, [c], ["[error] " ++ m ++ "\n"]⟩

/-- spawn_setup_install of src/utils/process.py, at the level of its
fallback chain over the three candidate commands. -/
def spawn_setup_install (attempt : List String → SpawnAttempt)
    (extra : List String) : SpawnSim :=
  spawnLoop attempt (setupBaseCmds extra)

/-- The fallback loop always attempts the head command first. -/
theorem spawnLoop_attempted_cons (attempt : List String → SpawnAttempt)
    (c : List String) (rest : List (List String)) :
    ∃ t, (spawnLoop attempt (c :: rest)).attempted = c :: t := by
  cases h : attempt c with
  | ok => exact ⟨[], by simp [spawnLoop, h]⟩
  | osError e m =>
    by_cases he : e = ENOEXEC
    · exact ⟨(spawnLoop attempt rest).attempted, by simp [spawnLoop, h, he]⟩
    · exact ⟨[], by simp [spawnLoop, h, he]⟩
  | exc m => exact ⟨[], by simp [spawnLoop, h]⟩

/-- Step lemma: an exec-format OSError on the head command logs a warning
and continues with the remaining commands. -/
theorem spawnLoop_cons_enoexec (attempt : List String → SpawnAttempt)
    (c : List String) (rest : List (List String)) (m : String)
    (h : attempt c = .osError ENOEXEC m) :
    spawnLoop attempt (c :: rest) =
      ⟨(spawnLoop attempt rest).result,
       c :: (spawnLoop attempt rest).attempted,
       ("[warn] Exec format error with " ++ String.intercalate " " c ++
         "; trying fallback...\n") :: (spawnLoop attempt rest).logs⟩ := by
  simp [spawnLoop, h]

/-- Step lemma: an OSError with any other errno aborts the loop. -/
theorem spawnLoop_cons_oserror (attempt : List String → SpawnAttempt)
    (c : List String) (rest : List (List String)) (e : Nat) (m : String)
    (h : attempt c = .osError e m) (he : e ≠ ENOEXEC) :
    spawnLoop attempt (c :: rest) = ⟨none, [c], ["[error] " ++ m ++ "\n"]⟩ := by
  simp [spawnLoop, h, he]

/-- Step lemma: a non-OSError exception aborts the loop. -/
theorem spawnLoop_cons_exc (attempt : List String → SpawnAttempt)
    (c : List String) (rest : List (List String)) (m : String)
    (h : attempt c = .exc m) :
    spawnLoop attempt (c :: rest) = ⟨none, [c], ["[error] " ++ m ++ "\n"]⟩ := by
  simp [spawnLoop, h]

/-! ## Claim C6: fallback order and exhaustion -/

/-- C6: when the direct ./setup attempt fails with an exec-format OSError,
the next attempted command is fish ./setup; when that also fails with
exec format, the third is sh ./setup; and when the third attempt also
fails, the loop returns None having attempted exactly those three commands
in order, with an error line as the last log entry. -/
theorem c6_fallback_chain (attempt : List String → SpawnAttempt)
    (extra : List String) (m1 m2 : String) :
    (attempt (["./setup"] ++ extra) = .osError ENOEXEC m1 →
      (spawn_setup_install attempt extra).attempted.take 2 =
        [["./setup"] ++ extra, ["fish", "./setup"] ++ extra]) ∧
    (attempt (["./setup"] ++ extra) = .osError ENOEXEC m1 →
      attempt (["fish", "./setup"] ++ extra) = .osError ENOEXEC m2 →
      (spawn_setup_install attempt extra).attempted.take 3 =
        [["./setup"] ++ extra, ["fish", "./setup"] ++ extra,
         ["sh", "./setup"] ++ extra]) ∧
    (attempt (["./setup"] ++ extra) = .osError ENOEXEC m1 →
      attempt (["fish", "./setup"] ++ extra) = .osError ENOEXEC m2 →
      attempt (["sh", "./setup"] ++ extra) ≠ .ok →
      (spawn_setup_install attempt extra).result = none ∧
      (spawn_setup_install attempt extra).attempted =
        [["./setup"] ++ extra, ["fish", "./setup"] ++ extra,
         ["sh", "./setup"] ++ extra] ∧
      ∃ t, (spawn_setup_install attempt extra).logs.getLast? =
        some ("[error] " ++ t)) := by
  have e1 : spawn_setup_install attempt extra =
      spawnLoop attempt
        [["./setup"] ++ extra, ["fish", "./setup"] ++ extra,
         ["sh", "./setup"] ++ extra] := rfl
  refine ⟨?_, ?_, ?_⟩
  · intro h1
    obtain ⟨t, ht⟩ :=
      spawnLoop_attempted_cons attempt (["fish", "./setup"] ++ extra)
        [["sh", "./setup"] ++ extra]
    rw [e1, spawnLoop_cons_enoexec attempt _ _ m1 h1]
    simp only [List.cons_append, List.nil_append] at ht
    simp [ht]
  · intro h1 h2
    obtain ⟨t, ht⟩ :=
      spawnLoop_attempted_cons attempt (["sh", "./setup"] ++ extra) []
    rw [e1, spawnLoop_cons_enoexec attempt _ _ m1 h1,
      spawnLoop_cons_enoexec attempt _ _ m2 h2]
    simp only [List.cons_append, List.nil_append] at ht
    simp [ht]
  · intro h1 h2 h3
    rw [e1, spawnLoop_cons_enoexec attempt _ _ m1 h1,
      spawnLoop_cons_enoexec attempt _ _ m2 h2]
    cases hc : attempt (["sh", "./setup"] ++ extra) with
    | ok => exact absurd hc h3
    | osError e m =>
      by_cases he : e = ENOEXEC
      · subst he
        rw [spawnLoop_cons_enoexec attempt _ _ m hc]
        refine ⟨rfl, rfl, "All setup execution fallbacks failed.\n", ?_⟩
        simp [spawnLoop, List.getLast?]
      · rw [spawnLoop_cons_oserror attempt _ _ e m hc he]
        refine ⟨rfl, rfl, m ++ "\n", ?_⟩
        simp [List.getLast?, String.append_assoc]
    | exc m =>
      rw [spawnLoop_cons_exc attempt _ _ m hc]
      refine ⟨rfl, rfl, m ++ "\n", ?_⟩
      simp [List.getLast?, String.append_assoc]

/-- Attempt behavior where every candidate command fails with exec format
error. -/
def attemptAllEnoexec : List String → SpawnAttempt :=
  fun _ => .osError 8 "Exec format error"

/-- Witness for C6: with every attempt failing on exec format, all three
commands are attempted in order, the result is None and the last log line
is an error line. -/
theorem c6_fallback_chain_witness :
    (spawn_setup_install attemptAllEnoexec []).result = none ∧
    (spawn_setup_install attemptAllEnoexec []).attempted =
      [["./setup"], ["fish", "./setup"], ["sh", "./setup"]] ∧
    ∃ t, (spawn_setup_install attemptAllEnoexec []).logs.getLast? =
      some ("[error] " ++ t) :=
  (c6_fallback_chain attemptAllEnoexec [] "Exec format error"
    "Exec format error").2.2 rfl rfl (by decide)

/-! ## Claim C7: which failure classes trigger the fallback -/

/-- Attempt behavior where the direct ./setup invocation fails with errno
ENOENT (missing executable) and any other command would succeed. -/
def attemptEnoent : List String → SpawnAttempt :=
  fun c => if c = ["./setup"] then .osError 2 "No such file or directory" else .ok

/-- Counterexample to C7 as stated: a missing-executable failure (errno 2)
on the first command does not proceed to the next command in the chain; the
loop aborts at once with only the first command attempted, logging the
error and returning None. -/
theorem c7_failure_classes_counterexample :
    (spawn_setup_install attemptEnoent []).result = none ∧
    (spawn_setup_install attemptEnoent []).attempted = [["./setup"]] ∧
    (spawn_setup_install attemptEnoent []).logs =
      ["[error] No such file or directory\n"] := by
  decide

/-- C7 amended: only an OSError with errno ENOEXEC (unsupported binary
format) makes the loop continue with the next command; an OSError of any
other errno, missing-executable and permission errors included, aborts the
chain immediately with the error logged and None returned (never raised,
the loop being a total function into SpawnSim). -/
theorem c7_failure_classes_amended (attempt : List String → SpawnAttempt)
    (extra : List String) :
    spawn_setup_install attempt extra =
      spawnLoop attempt
        [["./setup"] ++ extra, ["fish", "./setup"] ++ extra,
         ["sh", "./setup"] ++ extra] ∧
    (∀ (c : List String) (rest : List (List String)) (e : Nat) (m : String),
      attempt c = .osError e m → e ≠ ENOEXEC →
      spawnLoop attempt (c :: rest) =
        ⟨none, [c], ["[error] " ++ m ++ "\n"]⟩) ∧
    (∀ (c : List String) (rest : List (List String)) (m : String),
      attempt c = .exc m →
      spawnLoop attempt (c :: rest) =
        ⟨none, [c], ["[error] " ++ m ++ "\n"]⟩) ∧
    (∀ (c : List String) (rest : List (List String)) (m : String),
      attempt c = .osError ENOEXEC m →
      spawnLoop attempt (c :: rest) =
        ⟨(spawnLoop attempt rest).result,
         c :: (spawnLoop attempt rest).attempted,
         ("[warn] Exec format error with " ++ String.intercalate " " c ++
           "; trying fallback...\n") :: (spawnLoop attempt rest).logs⟩) ∧
    spawnLoop attempt [] =
      ⟨none, [], ["[error] All setup execution fallbacks failed.\n"]⟩ ∧
    (∀ (e : Nat) (m1 m : String),
      attempt (["./setup"] ++ extra) = .osError ENOEXEC m1 →
      attempt (["fish", "./setup"] ++ extra) = .osError e m → e ≠ ENOEXEC →
      spawn_setup_install attempt extra =
        ⟨none, [["./setup"] ++ extra, ["fish", "./setup"] ++ extra],
         ["[warn] Exec format error with " ++
            String.intercalate " " (["./setup"] ++ extra) ++
            "; trying fallback...\n",
          "[error] " ++ m ++ "\n"]⟩) ∧
    (∀ (m1 m : String),
      attempt (["./setup"] ++ extra) = .osError ENOEXEC m1 →
      attempt (["fish", "./setup"] ++ extra) = .exc m →
      spawn_setup_install attempt extra =
        ⟨none, [["./setup"] ++ extra, ["fish", "./setup"] ++ extra],
         ["[warn] Exec format error with " ++
            String.intercalate " " (["./setup"] ++ extra) ++
            "; trying fallback...\n",
          "[error] " ++ m ++ "\n"]⟩) := by
  have e1 : spawn_setup_install attempt extra =
      spawnLoop attempt
        [["./setup"] ++ extra, ["fish", "./setup"] ++ extra,
         ["sh", "./setup"] ++ extra] := rfl
  refine ⟨e1, ?_, ?_, ?_, rfl, ?_, ?_⟩
  · intro c rest e m h he
    exact spawnLoop_cons_oserror attempt c rest e m h he
  · intro c rest m h
    exact spawnLoop_cons_exc attempt c rest m h
  · intro c rest m h
    exact spawnLoop_cons_enoexec attempt c rest m h
  · intro e m1 m h1 h2 he
    rw [e1, spawnLoop_cons_enoexec attempt _ _ m1 h1,
      spawnLoop_cons_oserror attempt _ _ e m h2 he]
  · intro m1 m h1 h2
    rw [e1, spawnLoop_cons_enoexec attempt _ _ m1 h1,
      spawnLoop_cons_exc attempt _ _ m h2]

/-- Attempt behavior where the direct invocation fails with errno EACCES
(permission denied). -/
def attemptPerm : List String → SpawnAttempt :=
  fun _ => .osError 13 "Permission denied"

/-- Attempt behavior where the direct invocation fails with exec format
error and the fish fallback raises a non-OSError exception. -/
def attemptChainExc : List String → SpawnAttempt :=
  fun c =>
    if c = ["./setup"] then .osError 8 "Exec format error"
    else .exc "unexpected failure"

/-- Witness for C7 amended: a permission error on the first command aborts
the chain at once with the error logged, and a non-OSError exception at the
second chain position (after an exec-format continue) likewise aborts with
the error logged and None returned. -/
theorem c7_failure_classes_amended_witness :
    spawnLoop attemptPerm [["./setup"]] =
      ⟨none, [["./setup"]], ["[error] Permission denied\n"]⟩ ∧
    spawn_setup_install attemptChainExc [] =
      ⟨none, [["./setup"], ["fish", "./setup"]],
       ["[warn] Exec format error with ./setup; trying fallback...\n",
        "[error] unexpected failure\n"]⟩ :=
  ⟨(c7_failure_classes_amended attemptPerm []).2.1
     ["./setup"] [] 13 "Permission denied" rfl (by decide),
   (c7_failure_classes_amended attemptChainExc []).2.2.2.2.2.2
     "Exec format error" "unexpected failure" rfl (by decide)⟩

/-! ## src/utils/process.py: launch_install_external -/

/-- The single-quote character, kept out of literals for hygiene. -/
def squote : String := String.mk [Char.ofNat 39]

/-- Replacement that shlex.quote substitutes for a quote character. -/
def squoteEsc : String := squote ++ "\"" ++ squote ++ "\"" ++ squote

/-- Characters shlex.quote leaves unquoted (ASCII word characters plus
@ % + = : , . / -). -/
def shlexSafeChar (c : Char) : Bool :=
  c.isAlpha || c.isDigit || c == '_' || c == '@' || c == '%' || c == '+' ||
    c == '=' || c == ':' || c == ',' || c == '.' || c == '/' || c == '-'

/-- shlex.quote: the empty string becomes a pair of quotes, a safe string
is returned unchanged, anything else is wrapped in single quotes with each
embedded quote escaped. -/
def shlexQuote (s : String) : String :=
  if s.isEmpty then squote ++ squote
  else if s.toList.all shlexSafeChar then s
  else
    squote ++
      String.join (s.toList.map
        (fun c => if c = Char.ofNat 39 then squoteEsc else String.mk [c])) ++
      squote

/-- shlex.join: quote each word and join with spaces. -/
def shlexJoin (xs : List String) : String :=
  String.intercalate " " (xs.map shlexQuote)

/-- The fixed terminal-emulator probe list of launch_install_external, in
order: program name to probe and invocation stem. -/
def terminals : List (String × List String) :=
  [("kitty", ["kitty", "-e"]),
   ("alacritty", ["alacritty", "-e"]),
   ("gnome-terminal", ["gnome-terminal", "--"]),
   ("xterm", ["xterm", "-e"]),
   ("konsole", ["konsole", "-e"]),
   ("foot", ["foot", "sh", "-c"])]

/-- Full argv handed to Popen for one terminal: a stem ending in "-c"
receives the shell command string directly; every other stem (the source
treats stems ending in "--" or "-e" and the residual case identically)
receives sh -c with the joined command. -/
def buildFull (repoPath : String) (cmd : List String) (base : List String) :
    List String :=
  if base.getLast? = some "-c" then
    base ++ ["cd " ++ shlexQuote repoPath ++ " && " ++
      shlexQuote (cmd.headD "") ++ " " ++
      String.intercalate " " ((cmd.drop 1).map shlexQuote)]
  else
    base ++ ["sh", "-c", "cd " ++ shlexQuote repoPath ++ " && " ++ shlexJoin cmd]

/-- External world seen by launch_install_external: availability of each
probed program (shutil_which catches its own exceptions and yields None on
failure, so a Bool suffices), whether Popen succeeds on a terminal argv,
and the outcome of the final direct Popen, whose exception text, if any, is
the one thing this function can let escape. -/
structure LaunchWorld where
  which : String → Bool
  popenTerm : List String → Bool
  popenDirect : Option String

/-- Observable outcome of launch_install_external: the argv actually
spawned, if any, and the exception that escaped to the caller, if any. -/
structure LaunchOutcome where
  launched : Option (List String)
  raised : Option String
deriving Repr, DecidableEq

/-- Probe loop of launch_install_external: the first available terminal
whose Popen succeeds wins; a Popen failure on an available terminal is
swallowed and the loop continues; with the list exhausted, the installer is
run directly as a background child, and only that final Popen can raise. -/
def launchGo (w : LaunchWorld) (repoPath : String) (cmd : List String) :
    List (String × List String) → LaunchOutcome
  | [] =>
    match w.popenDirect with
    | none => ⟨some cmd, none⟩
    | some msg => ⟨none, some msg⟩
  | (name, base) :: rest =>
    if w.which name then
      if w.popenTerm (buildFull repoPath cmd base) then
        ⟨some (buildFull repoPath cmd base), none⟩
      else launchGo w repoPath cmd rest
    else launchGo w repoPath cmd rest

/-- launch_install_external of src/utils/process.py: build the installer
command ./setup install plus extra arguments and run the probe loop over
the fixed terminal list. -/
def launch_install_external (w : LaunchWorld) (repo_path : String)
    (extra_args : List String) : LaunchOutcome :=
  let args := ["install"] ++ extra_args
  let cmd := ["./setup"] ++ args
  launchGo w repo_path cmd terminals

/-- When the final direct spawn does not raise, no call of the probe loop
raises: every terminal-launch failure is swallowed. -/
theorem launchGo_raised_none (w : LaunchWorld) (repoPath : String)
    (cmd : List String) (ts : List (String × List String))
    (h : w.popenDirect = none) :
    (launchGo w repoPath cmd ts).raised = none := by
  induction ts with
  | nil => simp [launchGo, h]
  | cons p rest ih =>
    obtain ⟨name, base⟩ := p
    by_cases hw : w.which name
    · by_cases hp : w.popenTerm (buildFull repoPath cmd base)
      · simp [launchGo, hw, hp]
      · simpa [launchGo, hw, hp] using ih
    · simpa [launchGo, hw] using ih

/-- When no probed program is available, the loop falls through to the
direct background spawn. -/
theorem launchGo_all_unavailable (w : LaunchWorld) (repoPath : String)
    (cmd : List String) (ts : List (String × List String))
    (h : ∀ p ∈ ts, w.which p.1 = false) :
    launchGo w repoPath cmd ts = launchGo w repoPath cmd [] := by
  induction ts with
  | nil => rfl
  | cons p rest ih =>
    obtain ⟨name, base⟩ := p
    have hw : w.which name = false := h (name, base) (by simp)
    have step : launchGo w repoPath cmd ((name, base) :: rest) =
        launchGo w repoPath cmd rest := by
      simp [launchGo, hw]
    rw [step]
    exact ih (fun q hq => h q (by simp [hq]))

/-! ## Claim C9: exception containment of the external launcher -/

/-- World with no terminal emulator available and a failing direct spawn. -/
def launchWorldDirectFail : LaunchWorld :=
  { which := fun _ => false, popenTerm := fun _ => false,
    popenDirect := some "No such file or directory" }

/-- Counterexample to C9 as stated: with no terminal emulator available and
a repo path on which the direct background Popen fails, the exception of
that final spawn escapes launch_install_external to its caller. -/
theorem c9_never_raises_counterexample :
    (launch_install_external launchWorldDirectFail "/repo" []).raised =
      some "No such file or directory" ∧
    (launch_install_external launchWorldDirectFail "/repo" []).launched = none := by
  constructor <;> rfl

/-- C9 amended: failures while probing for or starting a terminal emulator
are swallowed, and when no terminal is available the installer is run
directly as a background child of the current process; the sole exception
that can escape is one raised by that final direct spawn, which is not
guarded. -/
theorem c9_exception_containment_amended (w : LaunchWorld)
    (repo_path : String) (extra_args : List String) :
    (w.popenDirect = none →
      (launch_install_external w repo_path extra_args).raised = none) ∧
    ((∀ p ∈ terminals, w.which p.1 = false) →
      launch_install_external w repo_path extra_args =
        match w.popenDirect with
        | none => ⟨some (["./setup", "install"] ++ extra_args), none⟩
        | some m => ⟨none, some m⟩) := by
  constructor
  · intro h
    exact launchGo_raised_none w repo_path _ terminals h
  · intro h
    have step := launchGo_all_unavailable w repo_path
      (["./setup", "install"] ++ extra_args) terminals h
    calc launch_install_external w repo_path extra_args
        = launchGo w repo_path (["./setup", "install"] ++ extra_args) terminals := rfl
      _ = launchGo w repo_path (["./setup", "install"] ++ extra_args) [] := step
      _ = _ := by cases hd : w.popenDirect <;> simp [launchGo, hd]

/-- World with no terminal emulator available and a direct spawn that
succeeds. -/
def launchWorldNoTerm : LaunchWorld :=
  { which := fun _ => false, popenTerm := fun _ => false, popenDirect := none }

/-- Witness for C9 amended: nothing raises and the installer command is
spawned directly when no terminal is available. -/
theorem c9_exception_containment_amended_witness :
    (launch_install_external launchWorldNoTerm "/repo" []).raised = none ∧
    launch_install_external launchWorldNoTerm "/repo" [] =
      ⟨some ["./setup", "install"], none⟩ :=
  ⟨(c9_exception_containment_amended launchWorldNoTerm "/repo" []).1 rfl,
   (c9_exception_containment_amended launchWorldNoTerm "/repo" []).2
     (fun _ _ => rfl)⟩

end Updots
